import Mathlib

/-!
Shallow embedding of `src/ui/actions.rs` of the rnote repository: the
stateful GTK actions (`tmperaser`, `current-pen`, `current-shape`,
`shaper-drawstyle`), the settings-backed actions (`devel`,
`renderer-backend`, `visual-debug`), and the stateless actions
(`zoom-fit-width`, `save-sheet`, `delete-selection`) that the claims
concern.

Modelling conventions:
- Each `connect_activate` / `connect_change_state` / `connect_state_notify`
  closure becomes a Lean function `AppState → ... → AppState × List Event`.
  The returned event list is the sequence of observer notifications
  (widget `set_active`, sidebar `set_visible_child_name`, canvas field
  writes, log lines, regenerate calls) in the order the closure issues them.
- `gio::SimpleAction` stored states are the `...State` fields of `AppState`;
  `set_state` is a record update of that field.
- Machine floats in `zoom-fit-width` are embedded as rationals.
-/

/-- Source: `PenStyle` variants, from `pens::PenStyle` as matched in `actions.rs`. -/
inductive PenStyle where
  | Marker
  | Brush
  | Shaper
  | Eraser
  | Selector
  deriving DecidableEq, Repr

/-- Source: `shaper::DrawStyle` variants as matched in `actions.rs`. -/
inductive DrawStyle where
  | Smooth
  | Rough
  deriving DecidableEq, Repr

/-- Source: `shaper::CurrentShape` variants as matched in `actions.rs`. -/
inductive CurrentShape where
  | Line
  | Rectangle
  | Ellipse
  deriving DecidableEq, Repr

/-- Source: `render::RendererBackend` variants as matched in `actions.rs`. -/
inductive RendererBackend where
  | Librsvg
  | Resvg
  deriving DecidableEq, Repr

/-- One observer notification / side effect issued by an action closure. -/
inductive Event where
  /-- a toggle widget's `set_active(true)`, identified by its accessor name -/
  | toggleActive (widget : String)
  /-- Source: `appwindow.canvas().current_pen().set(p)` -/
  | canvasPenSet (p : PenStyle)
  /-- Source: `penssidebar().sidebar_stack().set_visible_child_name(page)` -/
  | sidebarPage (page : String)
  /-- Source: `canvas().pens().borrow_mut().shaper.drawstyle = d` -/
  | shaperDrawstyleSet (d : DrawStyle)
  /-- Source: `canvas().pens().borrow_mut().shaper.current_shape = c` -/
  | shaperCurrentShapeSet (c : CurrentShape)
  /-- Source: `shaper_page().fill_revealer().set_reveal_child(b)` -/
  | fillRevealer (b : Bool)
  /-- a `log::error!` line -/
  | logError (msg : String)
  /-- Source: `canvas().regenerate_content(c, b)` -/
  | regenerateContent (c : Bool) (b : Bool)
  /-- Source: `canvas().regenerate_background(c, b)` -/
  | regenerateBackground (c : Bool) (b : Bool)
  /-- Source: `action_devel_settings.set_enabled(b)` -/
  | develSettingsSetEnabled (b : Bool)
  /-- Source: `devel_actions_revealer().set_reveal_child(b)` -/
  | develRevealerChild (b : Bool)
  /-- Source: `application().change_action_state(name, b)`: a state-set call on the
      named boolean command (observers of that command fire on it) -/
  | changeActionState (action : String) (b : Bool)
  deriving DecidableEq, Repr

/-- The state touched by the modelled closures: the stored states of the
stateful/settings actions, the `pen_tmp` cell, and the canvas-side fields. -/
structure AppState where
  /-- stored state of `action_current_pen` (initially "marker") -/
  currentPenState : String
  /-- stored state of `action_current_shape` (initially "rectangle") -/
  currentShapeState : String
  /-- stored state of `action_shaper_drawstyle` (initially "smooth") -/
  shaperDrawstyleState : String
  /-- stored state of `action_tmperaser` (initially false) -/
  tmperaserState : Bool
  /-- stored state of the settings-backed `devel` action -/
  develState : Bool
  /-- stored state of the settings-backed `visual-debug` action -/
  visualDebugState : Bool
  /-- stored state of the settings-backed `renderer-backend` action -/
  rendererBackendState : String
  /-- the `Rc<Cell<PenStyle>>` `pen_tmp` captured by `action_tmperaser` -/
  penTmp : PenStyle
  /-- Source: `appwindow.canvas().current_pen()` -/
  canvasPen : PenStyle
  /-- Source: `canvas().pens().borrow().shaper.drawstyle` -/
  shaperDrawstyle : DrawStyle
  /-- Source: `canvas().pens().borrow().shaper.current_shape` -/
  shaperCurrentShape : CurrentShape
  /-- Source: `canvas().renderer().borrow().backend` -/
  rendererBackend : RendererBackend
  deriving DecidableEq, Repr

/-- Source: `action_current_pen.connect_change_state` (actions.rs:155-188):
`set_state(value)` first, then match on the (new) state, notifying the
matching toggle, the canvas pen field and the sidebar page, or logging an
error on an unrecognized value. -/
def currentPenChangeState (s : AppState) (value : String) : AppState × List Event :=
  let s := { s with currentPenState := value }
  match s.currentPenState with
  | "marker" =>
      ({ s with canvasPen := PenStyle.Marker },
       [Event.toggleActive "marker_toggle", Event.canvasPenSet PenStyle.Marker,
        Event.sidebarPage "marker_page"])
  | "brush" =>
      ({ s with canvasPen := PenStyle.Brush },
       [Event.toggleActive "brush_toggle", Event.canvasPenSet PenStyle.Brush,
        Event.sidebarPage "brush_page"])
  | "shaper" =>
      ({ s with canvasPen := PenStyle.Shaper },
       [Event.toggleActive "shaper_toggle", Event.canvasPenSet PenStyle.Shaper,
        Event.sidebarPage "shaper_page"])
  | "eraser" =>
      ({ s with canvasPen := PenStyle.Eraser },
       [Event.toggleActive "eraser_toggle", Event.canvasPenSet PenStyle.Eraser,
        Event.sidebarPage "eraser_page"])
  | "selector" =>
      ({ s with canvasPen := PenStyle.Selector },
       [Event.toggleActive "selector_toggle", Event.canvasPenSet PenStyle.Selector,
        Event.sidebarPage "selector_page"])
  | _ => (s, [Event.logError "set invalid state of action `current-pen`"])

/-- Source: `action_current_pen.connect_activate` (actions.rs:150-154): compare the
stored state to the parameter; only when different, `change_state`. -/
def currentPenActivate (s : AppState) (parameter : String) : AppState × List Event :=
  if s.currentPenState ≠ parameter then currentPenChangeState s parameter
  else (s, [])

/-- Source: `action_shaper_drawstyle.connect_change_state` (actions.rs:199-215). -/
def shaperDrawstyleChangeState (s : AppState) (value : String) : AppState × List Event :=
  let s := { s with shaperDrawstyleState := value }
  match s.shaperDrawstyleState with
  | "smooth" =>
      ({ s with shaperDrawstyle := DrawStyle.Smooth },
       [Event.toggleActive "drawstyle_smooth_toggle",
        Event.shaperDrawstyleSet DrawStyle.Smooth])
  | "rough" =>
      ({ s with shaperDrawstyle := DrawStyle.Rough },
       [Event.toggleActive "drawstyle_rough_toggle",
        Event.shaperDrawstyleSet DrawStyle.Rough])
  | _ => (s, [Event.logError "set invalid state of action `shaper-drawstye`"])

/-- Source: `action_shaper_drawstyle.connect_activate` (actions.rs:192-198). -/
def shaperDrawstyleActivate (s : AppState) (parameter : String) : AppState × List Event :=
  if s.shaperDrawstyleState ≠ parameter then shaperDrawstyleChangeState s parameter
  else (s, [])

/-- Source: `action_current_shape.connect_change_state` (actions.rs:225-248):
line hides the fill revealer, rectangle and ellipse reveal it. -/
def currentShapeChangeState (s : AppState) (value : String) : AppState × List Event :=
  let s := { s with currentShapeState := value }
  match s.currentShapeState with
  | "line" =>
      ({ s with shaperCurrentShape := CurrentShape.Line },
       [Event.toggleActive "line_toggle",
        Event.shaperCurrentShapeSet CurrentShape.Line, Event.fillRevealer false])
  | "rectangle" =>
      ({ s with shaperCurrentShape := CurrentShape.Rectangle },
       [Event.toggleActive "rectangle_toggle",
        Event.shaperCurrentShapeSet CurrentShape.Rectangle, Event.fillRevealer true])
  | "ellipse" =>
      ({ s with shaperCurrentShape := CurrentShape.Ellipse },
       [Event.toggleActive "ellipse_toggle",
        Event.shaperCurrentShapeSet CurrentShape.Ellipse, Event.fillRevealer true])
  | _ => (s, [Event.logError "set invalid state of action `current-shape`"])

/-- Source: `action_current_shape.connect_activate` (actions.rs:219-224). -/
def currentShapeActivate (s : AppState) (parameter : String) : AppState × List Event :=
  if s.currentShapeState ≠ parameter then currentShapeChangeState s parameter
  else (s, [])

/-- Source: `action_tmperaser.connect_change_state` (actions.rs:423-436): guarded on
`value != state`; on false→true capture `pen_tmp` and write Eraser to the
canvas pen cell, on true→false write `pen_tmp` back. -/
def tmperaserChangeState (s : AppState) (value : Bool) : AppState × List Event :=
  if value ≠ s.tmperaserState then
    let s := { s with tmperaserState := value }
    if s.tmperaserState then
      ({ s with penTmp := s.canvasPen, canvasPen := PenStyle.Eraser },
       [Event.canvasPenSet PenStyle.Eraser])
    else
      ({ s with canvasPen := s.penTmp }, [Event.canvasPenSet s.penTmp])
  else (s, [])

/-- Source: `action_tmperaser.connect_activate` (actions.rs:413-422): with a boolean
parameter, `change_state(parameter)`; with no parameter, flip the state. -/
def tmperaserActivate (s : AppState) (parameter : Option Bool) : AppState × List Event :=
  match parameter with
  | some b => tmperaserChangeState s b
  | none => tmperaserChangeState s (!s.tmperaserState)

/-- Source: `change_action_state("visual-debug", b)` as issued in the `devel`
handler (actions.rs:115): a state-set call on the `visual-debug` command
(recorded as an event, so that it is observably not a raw field write). -/
def changeVisualDebugState (s : AppState) (b : Bool) : AppState × List Event :=
  ({ s with visualDebugState := b }, [Event.changeActionState "visual-debug" b])

/-- Source: `action_devel.connect_state_notify` (actions.rs:107-118): enable or
disable the devel-settings action and revealer from the new state; when the
state is false, force `visual-debug` to false through `change_action_state`. -/
def develStateNotify (s : AppState) : AppState × List Event :=
  let state := s.develState
  let evs := [Event.develSettingsSetEnabled state, Event.develRevealerChild state]
  if state then (s, evs)
  else
    let r := changeVisualDebugState s false
    (r.1, evs ++ r.2)

/-- A state transition on the settings-backed `devel` action: the settings
machinery stores the new value, then the `connect_state_notify` handler runs. -/
def develChangeState (s : AppState) (b : Bool) : AppState × List Event :=
  develStateNotify { s with develState := b }

/-- Source: `action_renderer_backend.connect_state_notify` (actions.rs:128-143):
match the stored state, set the renderer backend field or log an error, then
unconditionally `regenerate_content(true, true)`. -/
def rendererBackendStateNotify (s : AppState) : AppState × List Event :=
  let r :=
    match s.rendererBackendState with
    | "librsvg" => ({ s with rendererBackend := RendererBackend.Librsvg }, ([] : List Event))
    | "resvg" => ({ s with rendererBackend := RendererBackend.Resvg }, ([] : List Event))
    | _ => (s, [Event.logError "invalid state of action_renderer_backend"])
  (r.1, r.2 ++ [Event.regenerateContent true true])

/-- A state transition on the settings-backed `renderer-backend` action:
store the new value, then run the `connect_state_notify` handler. -/
def rendererBackendChangeState (s : AppState) (value : String) : AppState × List Event :=
  rendererBackendStateNotify { s with rendererBackendState := value }

/-- Source: `action_zoom_fit_width.connect_activate` (actions.rs:387-392): the new
scale factor `(canvas_scroller.width() - Canvas::SHADOW_WIDTH * 2.0) /
format.width()`. The f64 arithmetic is embedded over the rationals;
`Canvas::SHADOW_WIDTH` is declared outside this file, so it is a parameter. -/
def zoomFitWidthScalefactor (scrollerWidth : ℤ) (shadowWidth : ℚ)
    (formatWidth : ℤ) : ℚ :=
  ((scrollerWidth : ℚ) - shadowWidth * 2) / (formatWidth : ℚ)

/-- Source: `action_zoom_fit_width`'s full effect: `scale_to(new_scalefactor)` then
`regenerate_background(true, true)`. -/
def actionZoomFitWidth (scrollerWidth : ℤ) (shadowWidth : ℚ) (formatWidth : ℤ)
    (scalefactor : ℚ) : ℚ × List Event :=
  let newScalefactor := zoomFitWidthScalefactor scrollerWidth shadowWidth formatWidth
  let _ := scalefactor
  (newScalefactor, [Event.regenerateBackground true true])

/-- Source: `action_save_sheet.connect_activate` (actions.rs:458-471). Files are
identified by naturals; `dialog_save_sheet_as` and `sheet.save_sheet` live
outside this file, so they are parameters: `afterDialog` is the cached
output-file reference after the save-as dialog call (invoked only when the
cache is empty), `saveSheet` is the fallible save. On a save error the
failure is logged and the cached reference is overwritten with `None`;
on success nothing further happens. -/
def actionSaveSheet (outputFile : Option ℕ) (afterDialog : Option ℕ)
    (saveSheet : ℕ → Except String Unit) : Option ℕ × List Event :=
  let ofile := match outputFile with
    | none => afterDialog
    | some f => some f
  match ofile with
  | none => (none, [])
  | some f =>
    match saveSheet f with
    | Except.error e =>
        (none, [Event.logError ("failed to save sheet, " ++ e)])
    | Except.ok _ => (some f, [])

/-- The stroke collections touched by `action_delete_selection`:
`sheet().selection().strokes()` and `sheet().strokes_trash()`. Stroke
contents are opaque to this layer (spec §6), so strokes are a type
parameter. -/
structure SheetStrokes (α : Type) where
  selectionStrokes : List α
  strokesTrash : List α
  deriving DecidableEq, Repr

/-- Modelled from the spec: `selection().remove_strokes()` is defined
outside this file; spec §6 gives the document-model interface
`remove_selected_strokes() -> sequence<Stroke>`, removing the selected
strokes from the selection and returning them. -/
def removeStrokes (s : SheetStrokes α) : List α × SheetStrokes α :=
  (s.selectionStrokes, { s with selectionStrokes := [] })

/-- Source: `action_delete_selection.connect_activate` (actions.rs:252-258):
`let mut strokes = selection().remove_strokes();
strokes_trash().borrow_mut().append(&mut strokes)` — `Vec::append` moves
every removed stroke, in order, to the end of the trash. -/
def actionDeleteSelection (s : SheetStrokes α) : SheetStrokes α :=
  let r := removeStrokes s
  { r.2 with strokesTrash := r.2.strokesTrash ++ r.1 }

/-- A concrete state matching the initial stored states of the stateful
actions created in `setup_actions` (actions.rs:53-72): tmperaser false,
current-pen "marker", current-shape "rectangle", shaper-drawstyle "smooth",
with canvas-side fields consistent with them. -/
def state0 : AppState where
  currentPenState := "marker"
  currentShapeState := "rectangle"
  shaperDrawstyleState := "smooth"
  tmperaserState := false
  develState := false
  visualDebugState := false
  rendererBackendState := "librsvg"
  penTmp := PenStyle.Marker
  canvasPen := PenStyle.Marker
  shaperDrawstyle := DrawStyle.Smooth
  shaperCurrentShape := CurrentShape.Rectangle
  rendererBackend := RendererBackend.Librsvg

/-! ## Theorems -/

/-- C1: the claim that for every stateful command, the activate path and the
change-state path produce identical final state and observer notifications,
including when the value equals the current state, is false: at the initial
state, activating `current-pen` with "marker" (the current state) is a
no-op, while a direct `change_state` with "marker" re-applies the state and
notifies the toggle, the canvas pen field and the sidebar page. -/
theorem C1_counterexample :
    currentPenActivate state0 "marker" ≠ currentPenChangeState state0 "marker"
    ∧ (currentPenActivate state0 "marker").2 = []
    ∧ (currentPenChangeState state0 "marker").2
      = [Event.toggleActive "marker_toggle", Event.canvasPenSet PenStyle.Marker,
         Event.sidebarPage "marker_page"] := by
  refine ⟨?_, rfl, rfl⟩
  decide

/-- C1 (amended): for `tmperaser`, the activate path with a boolean
parameter always coincides with the change-state path; for the three
string-valued commands the two paths coincide exactly when the requested
value differs from the stored state, while for an equal value the activate
path is a strict no-op (no state write, no notification) and the
change-state path re-applies and re-notifies. -/
theorem C1_activate_change_state_equivalence (s : AppState) (v : String) :
    (v ≠ s.currentPenState →
      currentPenActivate s v = currentPenChangeState s v)
    ∧ (v ≠ s.currentShapeState →
      currentShapeActivate s v = currentShapeChangeState s v)
    ∧ (v ≠ s.shaperDrawstyleState →
      shaperDrawstyleActivate s v = shaperDrawstyleChangeState s v)
    ∧ (∀ b : Bool, tmperaserActivate s (some b) = tmperaserChangeState s b)
    ∧ (v = s.currentPenState → currentPenActivate s v = (s, []))
    ∧ (v = s.currentShapeState → currentShapeActivate s v = (s, []))
    ∧ (v = s.shaperDrawstyleState → shaperDrawstyleActivate s v = (s, [])) := by
  refine ⟨?_, ?_, ?_, fun b => rfl, ?_, ?_, ?_⟩
  · intro h
    simp [currentPenActivate, Ne.symm h]
  · intro h
    simp [currentShapeActivate, Ne.symm h]
  · intro h
    simp [shaperDrawstyleActivate, Ne.symm h]
  · intro h
    simp [currentPenActivate, h]
  · intro h
    simp [currentShapeActivate, h]
  · intro h
    simp [shaperDrawstyleActivate, h]

/-- Witness for C1 (amended) at a concrete input. -/
theorem C1_witness :
    currentPenActivate state0 "brush" = currentPenChangeState state0 "brush"
    ∧ currentPenActivate state0 "marker" = (state0, []) :=
  ⟨(C1_activate_change_state_equivalence state0 "brush").1 (by decide),
   (C1_activate_change_state_equivalence state0 "marker").2.2.2.2.1 (by decide)⟩

/-- C2: the claim that on every entry path a transition to the
already-current value is a no-op with no observer notification is false:
the change-state entry path has no idempotence guard, so at the initial
state (current shape "rectangle") a direct `change_state` with "rectangle"
re-applies the state and notifies the rectangle toggle, the canvas shape
field and the fill revealer. -/
theorem C2_counterexample :
    state0.currentShapeState = "rectangle"
    ∧ (currentShapeChangeState state0 "rectangle").2
      = [Event.toggleActive "rectangle_toggle",
         Event.shaperCurrentShapeSet CurrentShape.Rectangle,
         Event.fillRevealer true] := by
  exact ⟨rfl, rfl⟩

/-- C2 (amended): on the activate entry path, requesting the value already
equal to the stored state is a strict no-op on all three tool-mode axes:
the state is unchanged and no observer is notified. -/
theorem C2_activate_idempotent (s : AppState) :
    currentPenActivate s s.currentPenState = (s, [])
    ∧ currentShapeActivate s s.currentShapeState = (s, [])
    ∧ shaperDrawstyleActivate s s.shaperDrawstyleState = (s, []) := by
  refine ⟨?_, ?_, ?_⟩ <;>
    simp [currentPenActivate, currentShapeActivate, shaperDrawstyleActivate]

/-- C3: the claim that an unrecognized value leaves the axis's stored state
unchanged is false: the change-state handler calls `set_state(value)` before
matching, so the stored state of `current-pen` becomes "foo". -/
theorem C3_counterexample :
    (currentPenChangeState state0 "foo").1.currentPenState = "foo"
    ∧ state0.currentPenState = "marker" := by
  exact ⟨rfl, rfl⟩

/-- C3 (amended): per axis, for any value outside that axis's own
recognized variants (including another axis's variant names, such as
"marker" sent to current-shape), the handler logs an error and leaves every
canvas-side field and widget untouched — but the action's stored state is
overwritten with the unrecognized value, and `renderer-backend`
additionally still triggers a content regeneration. -/
theorem C3_invalid_variant (s : AppState) (vp vs vd vr : String)
    (hpen : vp ≠ "marker" ∧ vp ≠ "brush" ∧ vp ≠ "shaper" ∧ vp ≠ "eraser"
      ∧ vp ≠ "selector")
    (hshape : vs ≠ "line" ∧ vs ≠ "rectangle" ∧ vs ≠ "ellipse")
    (hdraw : vd ≠ "smooth" ∧ vd ≠ "rough")
    (hrend : vr ≠ "librsvg" ∧ vr ≠ "resvg") :
    currentPenChangeState s vp
      = ({ s with currentPenState := vp },
         [Event.logError "set invalid state of action `current-pen`"])
    ∧ currentShapeChangeState s vs
      = ({ s with currentShapeState := vs },
         [Event.logError "set invalid state of action `current-shape`"])
    ∧ shaperDrawstyleChangeState s vd
      = ({ s with shaperDrawstyleState := vd },
         [Event.logError "set invalid state of action `shaper-drawstye`"])
    ∧ rendererBackendChangeState s vr
      = ({ s with rendererBackendState := vr },
         [Event.logError "invalid state of action_renderer_backend",
          Event.regenerateContent true true]) := by
  obtain ⟨h1, h2, h3, h4, h5⟩ := hpen
  obtain ⟨h6, h7, h8⟩ := hshape
  obtain ⟨h9, h10⟩ := hdraw
  obtain ⟨h11, h12⟩ := hrend
  refine ⟨?_, ?_, ?_, ?_⟩
  · unfold currentPenChangeState
    dsimp only
    split <;> simp_all
  · unfold currentShapeChangeState
    dsimp only
    split <;> simp_all
  · unfold shaperDrawstyleChangeState
    dsimp only
    split <;> simp_all
  · unfold rendererBackendChangeState rendererBackendStateNotify
    dsimp only
    split <;> simp_all

/-- Witness for C3 (amended) at concrete per-axis-unrecognized values:
"foo" for current-pen, and the cross-axis variant names "marker" for
current-shape, "rectangle" for shaper-drawstyle and "smooth" for
renderer-backend. -/
theorem C3_witness :
    currentPenChangeState state0 "foo"
      = ({ state0 with currentPenState := "foo" },
         [Event.logError "set invalid state of action `current-pen`"])
    ∧ currentShapeChangeState state0 "marker"
      = ({ state0 with currentShapeState := "marker" },
         [Event.logError "set invalid state of action `current-shape`"])
    ∧ shaperDrawstyleChangeState state0 "rectangle"
      = ({ state0 with shaperDrawstyleState := "rectangle" },
         [Event.logError "set invalid state of action `shaper-drawstye`"])
    ∧ rendererBackendChangeState state0 "smooth"
      = ({ state0 with rendererBackendState := "smooth" },
         [Event.logError "invalid state of action_renderer_backend",
          Event.regenerateContent true true]) :=
  let h := C3_invalid_variant state0 "foo" "marker" "rectangle" "smooth"
    (by decide) (by decide) (by decide) (by decide)
  ⟨h.1, h.2.1, h.2.2.1, h.2.2.2⟩

/-- C4: from the Normal state (tmperaser false), setting tmperaser to true
and then to false restores the canvas's current pen to exactly the value it
held before, for every starting pen variant (Eraser included, since the
universal quantification over states covers it). -/
theorem C4_override_roundtrip (s : AppState) (h : s.tmperaserState = false) :
    ((tmperaserChangeState (tmperaserChangeState s true).1 false).1).canvasPen
      = s.canvasPen := by
  simp [tmperaserChangeState, h]

/-- Witness for C4 at a concrete state whose current pen is Eraser itself. -/
theorem C4_witness :
    ((tmperaserChangeState
        (tmperaserChangeState { state0 with canvasPen := PenStyle.Eraser } true).1
        false).1).canvasPen
      = ({ state0 with canvasPen := PenStyle.Eraser } : AppState).canvasPen :=
  C4_override_roundtrip { state0 with canvasPen := PenStyle.Eraser } rfl

/-- C5: while the override is active, a second request to set tmperaser to
true is a strict no-op (state unchanged, no notification, `pen_tmp` not
overwritten), so begin-begin-end restores the original pre-override pen,
not Eraser. -/
theorem C5_double_begin_guard (s : AppState) (h : s.tmperaserState = false) :
    tmperaserChangeState (tmperaserChangeState s true).1 true
      = ((tmperaserChangeState s true).1, [])
    ∧ ((tmperaserChangeState
          (tmperaserChangeState (tmperaserChangeState s true).1 true).1
          false).1).canvasPen
      = s.canvasPen := by
  constructor
  · simp [tmperaserChangeState, h]
  · simp [tmperaserChangeState, h]

/-- Witness for C5 at a concrete state whose current pen is Brush. -/
theorem C5_witness :
    tmperaserChangeState
        (tmperaserChangeState { state0 with canvasPen := PenStyle.Brush } true).1
        true
      = ((tmperaserChangeState { state0 with canvasPen := PenStyle.Brush } true).1, [])
    ∧ ((tmperaserChangeState
          (tmperaserChangeState
            (tmperaserChangeState { state0 with canvasPen := PenStyle.Brush } true).1
            true).1
          false).1).canvasPen
      = ({ state0 with canvasPen := PenStyle.Brush } : AppState).canvasPen :=
  C5_double_begin_guard { state0 with canvasPen := PenStyle.Brush } rfl

/-- C6: the claim that beginning the override forces the pen axis to Eraser
through the normal pen-axis transition path, with the eraser toggle and
sidebar page observers firing as for a direct pen selection, is false: the
handler writes Eraser directly into the canvas pen cell, so the only
notification is the canvas pen write — no toggle or sidebar event fires and
the `current-pen` action's stored state stays "marker", unlike a direct
`change_state` to "eraser". -/
theorem C6_counterexample :
    (tmperaserChangeState state0 true).2 = [Event.canvasPenSet PenStyle.Eraser]
    ∧ (tmperaserChangeState state0 true).1.currentPenState = "marker"
    ∧ (currentPenChangeState state0 "eraser").2
      = [Event.toggleActive "eraser_toggle", Event.canvasPenSet PenStyle.Eraser,
         Event.sidebarPage "eraser_page"] := by
  exact ⟨rfl, rfl, rfl⟩

/-- C6 (amended): from Normal, beginning the override captures the current
canvas pen into `pen_tmp` and writes Eraser directly to the canvas pen
cell; the pen action's stored state, the toggle widgets and the sidebar
page are not touched, the sole notification being the canvas pen write. -/
theorem C6_begin_override (s : AppState) (h : s.tmperaserState = false) :
    tmperaserChangeState s true
      = ({ s with tmperaserState := true, penTmp := s.canvasPen,
                  canvasPen := PenStyle.Eraser },
         [Event.canvasPenSet PenStyle.Eraser]) := by
  simp [tmperaserChangeState, h]

/-- Witness for C6 (amended) at the initial state. -/
theorem C6_witness :
    tmperaserChangeState state0 true
      = ({ state0 with tmperaserState := true, penTmp := state0.canvasPen,
                       canvasPen := PenStyle.Eraser },
         [Event.canvasPenSet PenStyle.Eraser]) :=
  C6_begin_override state0 rfl

/-- C7: a transition of the developer-mode boolean to false forces the
visual-debug boolean to false, and does so through a
`change_action_state("visual-debug", false)` call — recorded in the
notification sequence, hence observably a state-set on the visual-debug
command rather than a raw field write. -/
theorem C7_devel_off_forces_visual_debug (s : AppState) :
    develChangeState s false
      = ({ s with develState := false, visualDebugState := false },
         [Event.develSettingsSetEnabled false, Event.develRevealerChild false,
          Event.changeActionState "visual-debug" false]) := by
  rfl

/-- C8: `zoom-fit-width` sets the canvas scale factor to the scroller width
minus twice the shadow width, divided by the sheet format width; at
scroller width 1000, shadow width 10 and page width 480 the new scale is
(1000 - 20) / 480. -/
theorem C8_zoom_fit_width (w pw : ℤ) (sh oldScale : ℚ) :
    actionZoomFitWidth w sh pw oldScale
      = (((w : ℚ) - 2 * sh) / (pw : ℚ), [Event.regenerateBackground true true])
    ∧ zoomFitWidthScalefactor 1000 10 480 = (1000 - 20) / 480 := by
  constructor
  · unfold actionZoomFitWidth zoomFitWidthScalefactor
    rw [mul_comm]
  · norm_num [zoomFitWidthScalefactor]

/-- C9: with a cached output file, a failing save logs the failure and
resets the cached output-file reference to `None`, while a successful save
leaves the cached reference unchanged. -/
theorem C9_save_failure_resets (saveSheet : ℕ → Except String Unit)
    (afterDialog : Option ℕ) (f : ℕ) :
    (∀ e, saveSheet f = Except.error e →
      actionSaveSheet (some f) afterDialog saveSheet
        = (none, [Event.logError ("failed to save sheet, " ++ e)]))
    ∧ (saveSheet f = Except.ok () →
      actionSaveSheet (some f) afterDialog saveSheet = (some f, [])) := by
  constructor
  · intro e he
    simp [actionSaveSheet, he]
  · intro hok
    simp [actionSaveSheet, hok]

/-- Witness for C9 with a concrete failing save and a concrete succeeding
save. -/
theorem C9_witness :
    actionSaveSheet (some 1) none (fun _ => Except.error "io")
      = (none, [Event.logError ("failed to save sheet, " ++ "io")])
    ∧ actionSaveSheet (some 1) none (fun _ => Except.ok ())
      = (some 1, []) :=
  ⟨(C9_save_failure_resets (fun _ => Except.error "io") none 1).1 "io" rfl,
   (C9_save_failure_resets (fun _ => Except.ok ()) none 1).2 rfl⟩

/-- C10: deleting the selection appends every removed stroke, in order, to
the strokes trash, empties the selection, and preserves the multiset of
strokes held across selection plus trash. -/
theorem C10_delete_selection_conserves (α : Type) (s : SheetStrokes α) :
    (actionDeleteSelection s).strokesTrash
      = s.strokesTrash ++ s.selectionStrokes
    ∧ (actionDeleteSelection s).selectionStrokes = []
    ∧ (((actionDeleteSelection s).selectionStrokes
        ++ (actionDeleteSelection s).strokesTrash : List α) : Multiset α)
      = ((s.selectionStrokes ++ s.strokesTrash : List α) : Multiset α) := by
  refine ⟨rfl, rfl, ?_⟩
  show ((([] : List α) ++ (s.strokesTrash ++ s.selectionStrokes) : List α) : Multiset α)
    = ((s.selectionStrokes ++ s.strokesTrash : List α) : Multiset α)
  rw [List.nil_append]
  exact Multiset.coe_eq_coe.mpr List.perm_append_comm
